import Mathlib

/-!
Verification of the result-resolution core in `src/resolver/src/lookup.rs`
(trust-dns resolver): the `Lookup` answer container, the fallback
resolution engine `LookupFuture` (a poll-driven state machine over a list
of candidate names), and the typed projection layer generated by the
`lookup_type!` template (`SrvLookup`, `ReverseLookup`, `Ipv4Lookup`,
`Ipv6Lookup`, `MxLookup`, `TxtLookup` with their iterators and futures).

The embedding is shallow: Rust structs become Lean structures, the
`Future::poll` methods become pure step functions on the state, and the
executor's drive-to-completion loop becomes a fueled `run` function.  The
cache/query collaborator (`CachingClient`, defined in `lookup_state.rs`,
outside these sources) is represented by its observable behaviour: a
function from a query and options to the result its sub-future resolves
with.  Each poll of an in-flight sub-query is recorded in a query trace so
that "how many queries were issued, and in which order" is provable.
-/

/-- DNS name (`trust_dns_proto::rr::Name`), modelled by its textual form. -/
abbrev Name := String

/-- An IPv4 address (`std::net::Ipv4Addr`), four octets. -/
structure Ipv4Addr where
  o1 : Nat
  o2 : Nat
  o3 : Nat
  o4 : Nat
deriving DecidableEq

/-- An IPv6 address (`std::net::Ipv6Addr`), modelled by its 128-bit value. -/
structure Ipv6Addr where
  bits : Nat
deriving DecidableEq

/-- Payload of an SRV record (`trust_dns_proto::rr::rdata::SRV`). -/
structure SRVData where
  priority : Nat
  weight : Nat
  port : Nat
  target : Name
deriving DecidableEq

/-- Payload of an MX record (`trust_dns_proto::rr::rdata::MX`). -/
structure MXData where
  preference : Nat
  exchange : Name
deriving DecidableEq

/-- Payload of a TXT record (`trust_dns_proto::rr::rdata::TXT`): character strings. -/
abbrev TXTData := List String

/-- The record types this module mentions (`trust_dns_proto::rr::RecordType`). -/
inductive RecordType where
  | A
  | AAAA
  | CNAME
  | MX
  | NULL
  | PTR
  | SRV
  | TXT
deriving DecidableEq

/-- Record data (`trust_dns_proto::rr::RData`), restricted to the variants the
typed projection layer of `lookup.rs` distinguishes, plus `CNAME`/`NULL` which
it treats generically. -/
inductive RData where
  | A (addr : Ipv4Addr)
  | AAAA (addr : Ipv6Addr)
  | CNAME (name : Name)
  | MX (mx : MXData)
  | NULL
  | PTR (name : Name)
  | SRV (srv : SRVData)
  | TXT (txt : TXTData)
deriving DecidableEq

/-- `std::time::Instant`, modelled as ticks on a discrete clock; only `min` and
`+` on instants are used by this module. -/
abbrev Instant := Nat

/-- A DNS query (`trust_dns_proto::op::Query`): a name paired with a record type. -/
structure Query where
  name : Name
  query_type : RecordType
deriving DecidableEq

/-- `Query::query(name, query_type)`. -/
def Query.query (name : Name) (query_type : RecordType) : Query :=
  { name, query_type }

/-- `DnsRequestOptions`, opaque to this module and passed through unchanged. -/
structure DnsRequestOptions where
  expects_multiple_responses : Bool
deriving DecidableEq

/-- `DnsRequestOptions::default()`. -/
def DnsRequestOptions.default : DnsRequestOptions :=
  { expects_multiple_responses := false }

/-- Modelled from the spec: the resolver error type lives in `error.rs`, which is
not among these sources; the kinds are those `lookup.rs` and its tests construct
(`Message` for static messages, `Msg` for formatted ones, `NoRecordsFound`
carrying the query, and an i/o kind for transport failures). -/
inductive ResolveErrorKind where
  | Message (msg : String)
  | Msg (msg : String)
  | NoRecordsFound (query : Query)
  | IoError
deriving DecidableEq

/-- Modelled from the spec: a `ResolveError` is identified by its kind. -/
structure ResolveError where
  kind : ResolveErrorKind
deriving DecidableEq

/-- Modelled from the spec: `dns_lru::MAX_TTL`, the system-wide maximum TTL cap
(its numeric value is irrelevant to this module's claims). -/
def MAX_TTL : Nat := 2147483647

/-- Result of a DNS query: the answer container of `lookup.rs`
(`pub struct Lookup`), an ordered record sequence plus an expiry instant.
The `Arc` sharing of `rdatas` is immutability, which a Lean value has
automatically. -/
structure Lookup where
  rdatas : List RData
  valid_until : Instant
deriving DecidableEq

/-- `Lookup::new_with_max_ttl`: valid for the maximum TTL cap from `now`
(`Instant::now()` is passed explicitly since the embedding is pure). -/
def Lookup.new_with_max_ttl (now : Instant) (rdatas : List RData) : Lookup :=
  { rdatas, valid_until := now + MAX_TTL }

/-- `Lookup::new_with_deadline`. -/
def Lookup.new_with_deadline (rdatas : List RData) (valid_until : Instant) : Lookup :=
  { rdatas, valid_until }

/-- `LookupIter`: a borrowed iterator over the record sequence, modelled by the
list of records not yet yielded. -/
abbrev LookupIter := List RData

/-- `Lookup::iter`: a fresh iterator positioned at the first record. -/
def Lookup.iter (l : Lookup) : LookupIter :=
  l.rdatas

/-- `Lookup::is_empty`. -/
def Lookup.is_empty (l : Lookup) : Bool :=
  l.rdatas.isEmpty

/-- `Lookup::len`. -/
def Lookup.len (l : Lookup) : Nat :=
  l.rdatas.length

/-- `Lookup::append` (lookup.rs lines 81-89): clone self's records, extend with
other's records, and take the sooner of the two deadlines. -/
def Lookup.append (l : Lookup) (other : Lookup) : Lookup :=
  Lookup.new_with_deadline (l.rdatas ++ other.rdatas) (min l.valid_until other.valid_until)

/-- `futures::Async` (futures 0.1). -/
inductive Async (α : Type) where
  | Ready (v : α)
  | NotReady
deriving DecidableEq

/-- `futures::Poll<α, ResolveError> = Result<Async<α>, ResolveError>`. -/
abbrev Poll (α : Type) := Except ResolveError (Async α)

/-- Equality of `Except` values is decidable componentwise. -/
instance [DecidableEq ε] [DecidableEq α] : DecidableEq (Except ε α) := fun x y =>
  match x, y with
  | Except.error e, Except.error e' =>
    if h : e = e' then isTrue (by rw [h]) else isFalse (fun hh => by cases hh; exact h rfl)
  | Except.ok a, Except.ok a' =>
    if h : a = a' then isTrue (by rw [h]) else isFalse (fun hh => by cases hh; exact h rfl)
  | Except.error _, Except.ok _ => isFalse (fun hh => by cases hh)
  | Except.ok _, Except.error _ => isFalse (fun hh => by cases hh)

/-- Modelled from the spec: the cache/query collaborator (`CachingClient`,
`lookup_state.rs`, outside these sources) exposes
`lookup(query, options) -> asynchronous Answer Container or ResolveError`;
it is modelled by the result that each such sub-future resolves with. -/
structure CachingClient where
  lookup : Query → DnsRequestOptions → Except ResolveError Lookup

/-- The boxed inner future `Box<Future<Item = Lookup, Error = ResolveError>>`
held in `LookupFuture::future`: either an in-flight cache lookup for a query
(`client_cache.lookup(...)`, lookup.rs lines 180 and 200-201) or an
already-failed `future::err` (lines 182 and 219-221). -/
inductive InnerFuture where
  | query (q : Query) (opts : DnsRequestOptions)
  | failed (e : ResolveError)

/-- The state of the fallback resolution engine (`pub struct LookupFuture`,
lookup.rs lines 148-157): the collaborator, the remaining candidate names, the
record type sought, the request options, and the single in-flight sub-future. -/
structure LookupFuture where
  client_cache : CachingClient
  names : List Name
  record_type : RecordType
  options : DnsRequestOptions
  future : InnerFuture

/-- `Vec::pop`: remove and return the last element of the list, if any. -/
def vecPop (xs : List α) : Option α × List α :=
  match xs.getLast? with
  | some x => (some x, xs.dropLast)
  | none => (none, xs)

/-- `LookupFuture::lookup` (lookup.rs lines 168-192): pop the first candidate
from the end of `names`; on success start its cache query, otherwise store an
already-failed future with the message "can not lookup for no names". -/
def LookupFuture.lookup (names : List Name) (record_type : RecordType)
    (options : DnsRequestOptions) (client_cache : CachingClient) : LookupFuture :=
  match vecPop names with
  | (some name, rest) =>
      { client_cache, names := rest, record_type, options,
        future := InnerFuture.query (Query.query name record_type) options }
  | (none, rest) =>
      { client_cache, names := rest, record_type, options,
        future := InnerFuture.failed { kind := ResolveErrorKind.Message "can not lookup for no names" } }

/-- `LookupFuture::next_lookup` (lookup.rs lines 194-210): pop the next
candidate; if one exists, swap a query for it into `self.future`, notify the
task and report `NotReady`; otherwise return the `otherwise` result. -/
def LookupFuture.next_lookup (s : LookupFuture) (otherwise : Poll Lookup) :
    Poll Lookup × LookupFuture :=
  match vecPop s.names with
  | (some name, rest) =>
      (Except.ok Async.NotReady,
        { s with names := rest,
                 future := InnerFuture.query (Query.query name s.record_type) s.options })
  | (none, _) => (otherwise, s)

/-- Polling the inner sub-future once: an in-flight cache query resolves with
the collaborator's result for it; a `future::err` yields its error. -/
def InnerFuture.pollOnce (cc : CachingClient) : InnerFuture → Poll Lookup
  | InnerFuture.query q opts =>
      match cc.lookup q opts with
      | Except.ok l => Except.ok (Async.Ready l)
      | Except.error e => Except.error e
  | InnerFuture.failed e => Except.error e

/-- `<LookupFuture as Future>::poll` (lookup.rs lines 230-242), instrumented
with the trace of collaborator queries consulted during this poll (the single
in-flight sub-query, when there is one).  On a ready empty answer or an error,
`next_lookup` decides between fallback and termination; a ready non-empty
answer resolves the whole operation. -/
def LookupFuture.poll (s : LookupFuture) : Poll Lookup × LookupFuture × List Query :=
  let issued : List Query :=
    match s.future with
    | InnerFuture.query q _ => [q]
    | InnerFuture.failed _ => []
  match InnerFuture.pollOnce s.client_cache s.future with
  | Except.ok (Async.Ready lookup_ip) =>
      if lookup_ip.rdatas.length == 0 then
        let r := s.next_lookup (Except.ok (Async.Ready lookup_ip))
        (r.1, r.2, issued)
      else
        (Except.ok (Async.Ready lookup_ip), s, issued)
  | Except.ok Async.NotReady => (Except.ok Async.NotReady, s, issued)
  | Except.error e =>
      let r := s.next_lookup (Except.error e)
      (r.1, r.2, issued)

/-- An externally supplied error (`E: std::error::Error`), represented by its
`Display` text, which is all `LookupFuture::error` consumes of it. -/
structure ExternalError where
  display : String

/-- `LookupFuture::error` (lookup.rs lines 212-223): an already-failed
operation with no candidates, wrapping the cause's textual description. -/
def LookupFuture.error (client_cache : CachingClient) (e : ExternalError) : LookupFuture :=
  { client_cache,
    names := [],
    record_type := RecordType.NULL,
    options := DnsRequestOptions.default,
    future := InnerFuture.failed { kind := ResolveErrorKind.Msg e.display } }

/-- The executor's drive-to-completion loop: poll; when the poll reports
`NotReady` the engine has notified the task (`task::current().notify()`,
lookup.rs line 205) and is polled again on the next turn.  Returns the terminal
result (within `fuel` polls) and the concatenated query trace. -/
def LookupFuture.run (fuel : Nat) (s : LookupFuture) :
    Option (Except ResolveError Lookup) × List Query :=
  match fuel with
  | 0 => (none, [])
  | Nat.succ fuel =>
    match s.poll with
    | (Except.ok (Async.Ready l), _, qs) => (some (Except.ok l), qs)
    | (Except.error e, _, qs) => (some (Except.error e), qs)
    | (Except.ok Async.NotReady, s2, qs) =>
      let r := LookupFuture.run fuel s2
      (r.1, qs ++ r.2)

/-- The record-kind projection for the SRV family
(`SrvLookupIter::next`, lookup.rs lines 277-280): keep `RData::SRV`, unwrap. -/
def srvProj : RData → Option SRVData
  | RData.SRV data => some data
  | _ => none

/-- The record-kind projection of the `ReverseLookup` family (`RData::PTR`). -/
def ptrProj : RData → Option Name
  | RData.PTR data => some data
  | _ => none

/-- The record-kind projection of the `Ipv4Lookup` family (`RData::A`). -/
def aProj : RData → Option Ipv4Addr
  | RData.A data => some data
  | _ => none

/-- The record-kind projection of the `Ipv6Lookup` family (`RData::AAAA`). -/
def aaaaProj : RData → Option Ipv6Addr
  | RData.AAAA data => some data
  | _ => none

/-- The record-kind projection of the `MxLookup` family (`RData::MX`). -/
def mxProj : RData → Option MXData
  | RData.MX data => some data
  | _ => none

/-- The record-kind projection of the `TxtLookup` family (`RData::TXT`). -/
def txtProj : RData → Option TXTData
  | RData.TXT data => some data
  | _ => none

/-- A typed iterator as generated by the `lookup_type!` template (lookup.rs
lines 326-339) and by hand for SRV (lines 269-282): a wrapped `LookupIter`
together with the record-kind projection the template hardcodes per family. -/
structure TypedIter (β : Type) where
  proj : RData → Option β
  inner : LookupIter

/-- One `next()` call of the typed iterator: drive the underlying `LookupIter`
through `filter_map(..).next()`, i.e. pull records until the projection
matches, returning the payload and the iterator position after the match. -/
def filterMapNext (proj : RData → Option β) : LookupIter → Option β × LookupIter
  | [] => (none, [])
  | x :: xs =>
    match proj x with
    | some b => (some b, xs)
    | none => filterMapNext proj xs

/-- `next` on a typed iterator (`SrvLookupIter::next` and the `lookup_type!`
instances): the yielded payload, if any, and the advanced iterator. -/
def TypedIter.next (it : TypedIter β) : Option β × TypedIter β :=
  match filterMapNext it.proj it.inner with
  | (r, rest) => (r, { proj := it.proj, inner := rest })

/-- Repeatedly call `next` until it yields nothing, collecting the payloads.
Each successful `next` consumes at least one underlying record, so `fuel`
iterations suffice whenever `fuel` is at least the iterator's length. -/
def yieldAllFuel (proj : RData → Option β) : Nat → LookupIter → List β
  | 0, _ => []
  | Nat.succ fuel, xs =>
    match filterMapNext proj xs with
    | (some b, rest) => b :: yieldAllFuel proj fuel rest
    | (none, _) => []

/-- The full sequence a typed iterator yields when `next` is called to
exhaustion (the iterator is finite: it stops at the container's end). -/
def TypedIter.yieldAll (it : TypedIter β) : List β :=
  yieldAllFuel it.proj it.inner.length it.inner

/-- `pub struct SrvLookup(Lookup)` (lookup.rs line 247). -/
structure SrvLookup where
  lookup : Lookup
deriving DecidableEq

/-- `SrvLookup::iter` (lookup.rs lines 251-253): a fresh typed iterator over
the wrapped container, filtering for SRV records. -/
def SrvLookup.iter (s : SrvLookup) : TypedIter SRVData :=
  { proj := srvProj, inner := s.lookup.iter }

/-- `pub struct ReverseLookup(Lookup)` (from `lookup_type!`, lookup.rs 366-372). -/
structure ReverseLookup where
  lookup : Lookup
deriving DecidableEq

/-- `ReverseLookup::iter`. -/
def ReverseLookup.iter (s : ReverseLookup) : TypedIter Name :=
  { proj := ptrProj, inner := s.lookup.iter }

/-- `pub struct Ipv4Lookup(Lookup)` (from `lookup_type!`, lookup.rs 373-379). -/
structure Ipv4Lookup where
  lookup : Lookup
deriving DecidableEq

/-- `Ipv4Lookup::iter`. -/
def Ipv4Lookup.iter (s : Ipv4Lookup) : TypedIter Ipv4Addr :=
  { proj := aProj, inner := s.lookup.iter }

/-- `pub struct Ipv6Lookup(Lookup)` (from `lookup_type!`, lookup.rs 380-386). -/
structure Ipv6Lookup where
  lookup : Lookup
deriving DecidableEq

/-- `Ipv6Lookup::iter`. -/
def Ipv6Lookup.iter (s : Ipv6Lookup) : TypedIter Ipv6Addr :=
  { proj := aaaaProj, inner := s.lookup.iter }

/-- `pub struct MxLookup(Lookup)` (from `lookup_type!`, lookup.rs 387). -/
structure MxLookup where
  lookup : Lookup
deriving DecidableEq

/-- `MxLookup::iter`. -/
def MxLookup.iter (s : MxLookup) : TypedIter MXData :=
  { proj := mxProj, inner := s.lookup.iter }

/-- `pub struct TxtLookup(Lookup)` (from `lookup_type!`, lookup.rs 388-394). -/
structure TxtLookup where
  lookup : Lookup
deriving DecidableEq

/-- `TxtLookup::iter`. -/
def TxtLookup.iter (s : TxtLookup) : TypedIter TXTData :=
  { proj := txtProj, inner := s.lookup.iter }

/-- The six record families the typed projection layer distinguishes. -/
inductive RecordFamily where
  | srv
  | ptr
  | a
  | aaaa
  | mx
  | txt
deriving DecidableEq

/-- The semantic payload type of each record family. -/
def RecordFamily.Payload : RecordFamily → Type
  | RecordFamily.srv => SRVData
  | RecordFamily.ptr => Name
  | RecordFamily.a => Ipv4Addr
  | RecordFamily.aaaa => Ipv6Addr
  | RecordFamily.mx => MXData
  | RecordFamily.txt => TXTData

/-- The record-kind projection of each family, as hardcoded per instantiation
of the `lookup_type!` template. -/
def RecordFamily.proj : (f : RecordFamily) → RData → Option f.Payload
  | RecordFamily.srv => srvProj
  | RecordFamily.ptr => ptrProj
  | RecordFamily.a => aProj
  | RecordFamily.aaaa => aaaaProj
  | RecordFamily.mx => mxProj
  | RecordFamily.txt => txtProj

/-- The typed iterator a family's typed lookup view produces over a container:
identical to `SrvLookup.iter`, `Ipv4Lookup.iter`, ... at the respective family. -/
def RecordFamily.iterOf (f : RecordFamily) (l : Lookup) : TypedIter f.Payload :=
  { proj := f.proj, inner := l.iter }

/-- Wrap an `Async` value's payload. -/
def Async.map (f : α → β) : Async α → Async β
  | Async.Ready v => Async.Ready (f v)
  | Async.NotReady => Async.NotReady

/-- Wrap a `Poll`'s success payload, leaving suspension and errors unchanged. -/
def pollMap (f : α → β) (p : Poll α) : Poll β :=
  Except.map (Async.map f) p

/-- `pub struct SrvLookupFuture(LookupFuture)` (lookup.rs line 285). -/
structure SrvLookupFuture where
  inner : LookupFuture

/-- `<SrvLookupFuture as Future>::poll` (lookup.rs lines 297-303): delegate to
the inner poll; wrap a ready container into `SrvLookup`; pass `NotReady` and
errors through. -/
def SrvLookupFuture.poll (s : SrvLookupFuture) : Poll SrvLookup × SrvLookupFuture × List Query :=
  match s.inner.poll with
  | (Except.ok (Async.Ready lookup), s2, qs) =>
      (Except.ok (Async.Ready { lookup }), { inner := s2 }, qs)
  | (Except.ok Async.NotReady, s2, qs) => (Except.ok Async.NotReady, { inner := s2 }, qs)
  | (Except.error e, s2, qs) => (Except.error e, { inner := s2 }, qs)

/-- `pub struct ReverseLookupFuture(LookupFuture)` (from `lookup_type!`). -/
structure ReverseLookupFuture where
  inner : LookupFuture

/-- `<ReverseLookupFuture as Future>::poll` (from `lookup_type!`, lines 354-360). -/
def ReverseLookupFuture.poll (s : ReverseLookupFuture) :
    Poll ReverseLookup × ReverseLookupFuture × List Query :=
  match s.inner.poll with
  | (Except.ok (Async.Ready lookup), s2, qs) =>
      (Except.ok (Async.Ready { lookup }), { inner := s2 }, qs)
  | (Except.ok Async.NotReady, s2, qs) => (Except.ok Async.NotReady, { inner := s2 }, qs)
  | (Except.error e, s2, qs) => (Except.error e, { inner := s2 }, qs)

/-- `pub struct Ipv4LookupFuture(LookupFuture)` (from `lookup_type!`). -/
structure Ipv4LookupFuture where
  inner : LookupFuture

/-- `<Ipv4LookupFuture as Future>::poll` (from `lookup_type!`, lines 354-360). -/
def Ipv4LookupFuture.poll (s : Ipv4LookupFuture) :
    Poll Ipv4Lookup × Ipv4LookupFuture × List Query :=
  match s.inner.poll with
  | (Except.ok (Async.Ready lookup), s2, qs) =>
      (Except.ok (Async.Ready { lookup }), { inner := s2 }, qs)
  | (Except.ok Async.NotReady, s2, qs) => (Except.ok Async.NotReady, { inner := s2 }, qs)
  | (Except.error e, s2, qs) => (Except.error e, { inner := s2 }, qs)

/-- `pub struct Ipv6LookupFuture(LookupFuture)` (from `lookup_type!`). -/
structure Ipv6LookupFuture where
  inner : LookupFuture

/-- `<Ipv6LookupFuture as Future>::poll` (from `lookup_type!`, lines 354-360). -/
def Ipv6LookupFuture.poll (s : Ipv6LookupFuture) :
    Poll Ipv6Lookup × Ipv6LookupFuture × List Query :=
  match s.inner.poll with
  | (Except.ok (Async.Ready lookup), s2, qs) =>
      (Except.ok (Async.Ready { lookup }), { inner := s2 }, qs)
  | (Except.ok Async.NotReady, s2, qs) => (Except.ok Async.NotReady, { inner := s2 }, qs)
  | (Except.error e, s2, qs) => (Except.error e, { inner := s2 }, qs)

/-- `pub struct MxLookupFuture(LookupFuture)` (from `lookup_type!`). -/
structure MxLookupFuture where
  inner : LookupFuture

/-- `<MxLookupFuture as Future>::poll` (from `lookup_type!`, lines 354-360). -/
def MxLookupFuture.poll (s : MxLookupFuture) :
    Poll MxLookup × MxLookupFuture × List Query :=
  match s.inner.poll with
  | (Except.ok (Async.Ready lookup), s2, qs) =>
      (Except.ok (Async.Ready { lookup }), { inner := s2 }, qs)
  | (Except.ok Async.NotReady, s2, qs) => (Except.ok Async.NotReady, { inner := s2 }, qs)
  | (Except.error e, s2, qs) => (Except.error e, { inner := s2 }, qs)

/-- `pub struct TxtLookupFuture(LookupFuture)` (from `lookup_type!`). -/
structure TxtLookupFuture where
  inner : LookupFuture

/-- `<TxtLookupFuture as Future>::poll` (from `lookup_type!`, lines 354-360). -/
def TxtLookupFuture.poll (s : TxtLookupFuture) :
    Poll TxtLookup × TxtLookupFuture × List Query :=
  match s.inner.poll with
  | (Except.ok (Async.Ready lookup), s2, qs) =>
      (Except.ok (Async.Ready { lookup }), { inner := s2 }, qs)
  | (Except.ok Async.NotReady, s2, qs) => (Except.ok Async.NotReady, { inner := s2 }, qs)
  | (Except.error e, s2, qs) => (Except.error e, { inner := s2 }, qs)

/-- A concrete collaborator: succeeds with one A record only for the name "b",
fails for every other query (so any second query would be observed as an error). -/
def ccFirstSuccess : CachingClient :=
  { lookup := fun q _ =>
      if q.name = "b" then
        Except.ok { rdatas := [RData.A { o1 := 127, o2 := 0, o3 := 0, o4 := 1 }], valid_until := 5 }
      else Except.error { kind := ResolveErrorKind.IoError } }

/-- A concrete collaborator answering every query with an empty container. -/
def ccEmptyAll : CachingClient :=
  { lookup := fun _ _ => Except.ok { rdatas := [], valid_until := 0 } }

/-- A concrete collaborator failing every query, with a per-name error. -/
def ccErrAll : CachingClient :=
  { lookup := fun q _ => Except.error { kind := ResolveErrorKind.Msg q.name } }

/-- A concrete collaborator answering every query with one CNAME record. -/
def ccCname : CachingClient :=
  { lookup := fun _ _ => Except.ok { rdatas := [RData.CNAME "c.example."], valid_until := 7 } }

/-! ### Helper lemmas about `vecPop` and single poll steps -/

theorem vecPop_nil : vecPop ([] : List α) = (none, []) := rfl

theorem vecPop_concat (xs : List α) (x : α) : vecPop (xs ++ [x]) = (some x, xs) := by
  simp [vecPop, List.getLast?_concat, List.dropLast_concat]

theorem poll_query_success_nonempty (cc : CachingClient) (names : List Name)
    (rt : RecordType) (opts : DnsRequestOptions) (q : Query) (l : Lookup)
    (hq : cc.lookup q opts = Except.ok l) (hne : l.rdatas ≠ []) :
    LookupFuture.poll
        { client_cache := cc, names, record_type := rt, options := opts,
          future := InnerFuture.query q opts } =
      (Except.ok (Async.Ready l),
        { client_cache := cc, names, record_type := rt, options := opts,
          future := InnerFuture.query q opts }, [q]) := by
  have hb : (l.rdatas.length == 0) = false := by
    simp [List.length_eq_zero, hne]
  simp [LookupFuture.poll, InnerFuture.pollOnce, hq, hb]

theorem poll_query_success_empty_more (cc : CachingClient) (names : List Name)
    (rt : RecordType) (opts : DnsRequestOptions) (q : Query) (l : Lookup)
    (name : Name) (rest : List Name)
    (hq : cc.lookup q opts = Except.ok l) (he : l.rdatas = [])
    (hpop : vecPop names = (some name, rest)) :
    LookupFuture.poll
        { client_cache := cc, names, record_type := rt, options := opts,
          future := InnerFuture.query q opts } =
      (Except.ok Async.NotReady,
        { client_cache := cc, names := rest, record_type := rt, options := opts,
          future := InnerFuture.query (Query.query name rt) opts }, [q]) := by
  simp [LookupFuture.poll, InnerFuture.pollOnce, hq, he, LookupFuture.next_lookup, hpop]

theorem poll_query_success_empty_last (cc : CachingClient)
    (rt : RecordType) (opts : DnsRequestOptions) (q : Query) (l : Lookup)
    (hq : cc.lookup q opts = Except.ok l) (he : l.rdatas = []) :
    LookupFuture.poll
        { client_cache := cc, names := [], record_type := rt, options := opts,
          future := InnerFuture.query q opts } =
      (Except.ok (Async.Ready l),
        { client_cache := cc, names := [], record_type := rt, options := opts,
          future := InnerFuture.query q opts }, [q]) := by
  simp [LookupFuture.poll, InnerFuture.pollOnce, hq, he, LookupFuture.next_lookup, vecPop_nil]

theorem poll_query_error_more (cc : CachingClient) (names : List Name)
    (rt : RecordType) (opts : DnsRequestOptions) (q : Query) (e : ResolveError)
    (name : Name) (rest : List Name)
    (hq : cc.lookup q opts = Except.error e)
    (hpop : vecPop names = (some name, rest)) :
    LookupFuture.poll
        { client_cache := cc, names, record_type := rt, options := opts,
          future := InnerFuture.query q opts } =
      (Except.ok Async.NotReady,
        { client_cache := cc, names := rest, record_type := rt, options := opts,
          future := InnerFuture.query (Query.query name rt) opts }, [q]) := by
  simp [LookupFuture.poll, InnerFuture.pollOnce, hq, LookupFuture.next_lookup, hpop]

theorem poll_query_error_last (cc : CachingClient)
    (rt : RecordType) (opts : DnsRequestOptions) (q : Query) (e : ResolveError)
    (hq : cc.lookup q opts = Except.error e) :
    LookupFuture.poll
        { client_cache := cc, names := [], record_type := rt, options := opts,
          future := InnerFuture.query q opts } =
      (Except.error e,
        { client_cache := cc, names := [], record_type := rt, options := opts,
          future := InnerFuture.query q opts }, [q]) := by
  simp [LookupFuture.poll, InnerFuture.pollOnce, hq, LookupFuture.next_lookup, vecPop_nil]

theorem lookup_state_of_pop (names : List Name) (rt : RecordType)
    (opts : DnsRequestOptions) (cc : CachingClient) (name : Name) (rest : List Name)
    (hpop : vecPop names = (some name, rest)) :
    LookupFuture.lookup names rt opts cc =
      { client_cache := cc, names := rest, record_type := rt, options := opts,
        future := InnerFuture.query (Query.query name rt) opts } := by
  simp [LookupFuture.lookup, hpop]

/-- Shared helper: when the first-attempted candidate's query succeeds with a
non-empty container, the whole run resolves with it after that one query. -/
theorem run_lookup_first_success (names : List Name) (rt : RecordType)
    (opts : DnsRequestOptions) (cc : CachingClient) (name : Name) (rest : List Name)
    (l : Lookup)
    (hpop : vecPop names = (some name, rest))
    (hq : cc.lookup (Query.query name rt) opts = Except.ok l)
    (hne : l.rdatas ≠ []) (fuel : Nat) :
    LookupFuture.run (fuel + 1) (LookupFuture.lookup names rt opts cc) =
      (some (Except.ok l), [Query.query name rt]) := by
  rw [lookup_state_of_pop names rt opts cc name rest hpop]
  have hp := poll_query_success_nonempty cc rest rt opts (Query.query name rt) l hq hne
  simp [LookupFuture.run, hp]

/-- Shared helper: from a state with an in-flight query that resolves to an
empty container, when every remaining candidate's query also resolves to an
empty container, the run terminates successfully with an empty container after
polling the in-flight query and then each candidate in pop order. -/
theorem run_all_empty (cc : CachingClient) (rt : RecordType) (opts : DnsRequestOptions) :
    ∀ (names : List Name) (q : Query) (l : Lookup),
      cc.lookup q opts = Except.ok l → l.rdatas = [] →
      (∀ name ∈ names, ∃ l', cc.lookup (Query.query name rt) opts = Except.ok l' ∧ l'.rdatas = []) →
      ∃ lz, lz.rdatas = [] ∧
        LookupFuture.run (names.length + 1)
            { client_cache := cc, names, record_type := rt, options := opts,
              future := InnerFuture.query q opts } =
          (some (Except.ok lz), q :: names.reverse.map (fun n => Query.query n rt)) := by
  intro names
  induction names using List.reverseRecOn with
  | nil =>
    intro q l hq hl _
    refine ⟨l, hl, ?_⟩
    have hp := poll_query_success_empty_last cc rt opts q l hq hl
    simp [LookupFuture.run, hp]
  | append_singleton ys y ih =>
    intro q l hq hl hall
    obtain ⟨ly, hqy, hly⟩ := hall y (by simp)
    obtain ⟨lz, hlz, hrun⟩ :=
      ih (Query.query y rt) ly hqy hly (fun n hn => hall n (by simp [hn]))
    refine ⟨lz, hlz, ?_⟩
    have hp := poll_query_success_empty_more cc (ys ++ [y]) rt opts q l y ys hq hl
      (vecPop_concat ys y)
    have hlen : (ys ++ [y]).length + 1 = (ys.length + 1) + 1 := by simp
    rw [hlen, LookupFuture.run]
    simp only [hp, hrun]
    simp

/-- Shared helper: from a state with an in-flight query that fails, when every
remaining candidate's query also fails, the run terminates with an error after
polling the in-flight query and then each candidate in pop order; the terminal
error is the initial error when no candidates remain, and otherwise the error
of the head (the last-popped, least-priority) candidate. -/
theorem run_all_error (cc : CachingClient) (rt : RecordType) (opts : DnsRequestOptions) :
    ∀ (names : List Name) (q : Query) (e : ResolveError),
      cc.lookup q opts = Except.error e →
      (∀ name ∈ names, ∃ e', cc.lookup (Query.query name rt) opts = Except.error e') →
      ∃ ez,
        LookupFuture.run (names.length + 1)
            { client_cache := cc, names, record_type := rt, options := opts,
              future := InnerFuture.query q opts } =
          (some (Except.error ez), q :: names.reverse.map (fun n => Query.query n rt)) ∧
        ((names = [] ∧ ez = e) ∨
          (∃ n0 ns, names = n0 :: ns ∧
            cc.lookup (Query.query n0 rt) opts = Except.error ez)) := by
  intro names
  induction names using List.reverseRecOn with
  | nil =>
    intro q e hq _
    refine ⟨e, ?_, Or.inl ⟨rfl, rfl⟩⟩
    have hp := poll_query_error_last cc rt opts q e hq
    simp [LookupFuture.run, hp]
  | append_singleton ys y ih =>
    intro q e hq hall
    obtain ⟨ey, hqy⟩ := hall y (by simp)
    obtain ⟨ez, hrun, hdisj⟩ :=
      ih (Query.query y rt) ey hqy (fun n hn => hall n (by simp [hn]))
    refine ⟨ez, ?_, ?_⟩
    · have hp := poll_query_error_more cc (ys ++ [y]) rt opts q e y ys hq (vecPop_concat ys y)
      have hlen : (ys ++ [y]).length + 1 = (ys.length + 1) + 1 := by simp
      rw [hlen, LookupFuture.run]
      simp only [hp, hrun]
      simp
    · rcases hdisj with ⟨hnil, hez⟩ | ⟨n0, ns, hcons, hl⟩
      · subst hnil
        subst hez
        exact Or.inr ⟨y, [], rfl, hqy⟩
      · subst hcons
        exact Or.inr ⟨n0, ns ++ [y], rfl, hl⟩

/-! ### Helper lemmas about the typed iterators -/

theorem filterMapNext_eq_none (proj : RData → Option β) :
    ∀ (xs : LookupIter) (rest : LookupIter),
      filterMapNext proj xs = (none, rest) → xs.filterMap proj = [] := by
  intro xs
  induction xs with
  | nil => intro rest _; rfl
  | cons x xs ih =>
    intro rest h
    simp only [filterMapNext] at h
    cases hp : proj x with
    | some b => rw [hp] at h; cases h
    | none =>
      rw [hp] at h
      simp [List.filterMap_cons, hp, ih rest h]

theorem filterMapNext_eq_some (proj : RData → Option β) :
    ∀ (xs : LookupIter) (b : β) (rest : LookupIter),
      filterMapNext proj xs = (some b, rest) →
      xs.filterMap proj = b :: rest.filterMap proj ∧ rest.length < xs.length := by
  intro xs
  induction xs with
  | nil => intro b rest h; cases h
  | cons x xs ih =>
    intro b rest h
    simp only [filterMapNext] at h
    cases hp : proj x with
    | some b2 =>
      rw [hp] at h
      obtain ⟨hb, hr⟩ := Prod.mk.injEq .. ▸ h
      cases hb
      cases hr
      exact ⟨by simp [List.filterMap_cons, hp], Nat.lt_succ_self _⟩
    | none =>
      rw [hp] at h
      obtain ⟨h1, h2⟩ := ih b rest h
      exact ⟨by simp [List.filterMap_cons, hp, h1], Nat.lt_succ_of_lt h2⟩

theorem yieldAllFuel_eq_filterMap (proj : RData → Option β) :
    ∀ (fuel : Nat) (xs : LookupIter), xs.length ≤ fuel →
      yieldAllFuel proj fuel xs = xs.filterMap proj := by
  intro fuel
  induction fuel with
  | zero =>
    intro xs h
    have hnil : xs = [] := List.length_eq_zero.mp (Nat.le_zero.mp h)
    subst hnil
    rfl
  | succ fuel ih =>
    intro xs h
    rw [yieldAllFuel]
    cases hfm : filterMapNext proj xs with
    | mk r rest =>
      cases r with
      | some b =>
        obtain ⟨h1, h2⟩ := filterMapNext_eq_some proj xs b rest hfm
        show b :: yieldAllFuel proj fuel rest = xs.filterMap proj
        rw [h1, ih rest (Nat.le_of_lt_succ (Nat.lt_of_lt_of_le h2 h))]
      | none =>
        show ([] : List β) = xs.filterMap proj
        rw [filterMapNext_eq_none proj xs rest hfm]

theorem yieldAll_eq_filterMap (it : TypedIter β) :
    it.yieldAll = it.inner.filterMap it.proj :=
  yieldAllFuel_eq_filterMap it.proj it.inner.length it.inner (Nat.le_refl _)

/-! ### Claim theorems -/

/-- C1: for every non-empty candidate list, if the first-attempted candidate
(the one `Vec::pop` removes at construction) resolves successfully with a
non-empty answer container, then driving the `LookupFuture` resolves the whole
operation successfully with exactly that container, and the only query ever
issued to the collaborator is the first candidate's — none of the remaining
candidates is queried. -/
theorem first_success_short_circuits (names : List Name) (rt : RecordType)
    (opts : DnsRequestOptions) (cc : CachingClient) (name : Name) (rest : List Name)
    (l : Lookup)
    (hpop : vecPop names = (some name, rest))
    (hq : cc.lookup (Query.query name rt) opts = Except.ok l)
    (hne : l.rdatas ≠ []) (fuel : Nat) :
    LookupFuture.run (fuel + 1) (LookupFuture.lookup names rt opts cc) =
      (some (Except.ok l), [Query.query name rt]) :=
  run_lookup_first_success names rt opts cc name rest l hpop hq hne fuel

/-- Witness for C1 at candidates `["a", "b"]`: "b" is attempted first, answers
with one A record, and the trace holds only "b"'s query even though "a"
remains (the collaborator would fail on any other query). -/
theorem first_success_short_circuits_witness :
    vecPop (["a", "b"] : List Name) = (some "b", ["a"]) ∧
    ccFirstSuccess.lookup (Query.query "b" RecordType.A) DnsRequestOptions.default =
      Except.ok { rdatas := [RData.A { o1 := 127, o2 := 0, o3 := 0, o4 := 1 }], valid_until := 5 } ∧
    ({ rdatas := [RData.A { o1 := 127, o2 := 0, o3 := 0, o4 := 1 }], valid_until := 5 } : Lookup).rdatas ≠ [] ∧
    LookupFuture.run 1
        (LookupFuture.lookup ["a", "b"] RecordType.A DnsRequestOptions.default ccFirstSuccess) =
      (some (Except.ok { rdatas := [RData.A { o1 := 127, o2 := 0, o3 := 0, o4 := 1 }], valid_until := 5 }),
        [Query.query "b" RecordType.A]) :=
  ⟨by decide, by decide, by decide,
    first_success_short_circuits ["a", "b"] RecordType.A DnsRequestOptions.default
      ccFirstSuccess "b" ["a"] _ (by decide) (by decide) (by decide) 0⟩

/-- Counterexample to C2 as stated: at candidate-list length `n = 0` — where
"the collaborator returns an empty container for every query" holds vacuously
(this collaborator even returns an empty container for literally every
query) — the operation does not resolve successfully with an empty container:
it fails with the "can not lookup for no names" error (and issues no query).
Extra fuel does not change the outcome. -/
theorem zero_candidates_fail_not_empty_success :
    LookupFuture.run 1
        (LookupFuture.lookup [] RecordType.A DnsRequestOptions.default ccEmptyAll) =
      (some (Except.error { kind := ResolveErrorKind.Message "can not lookup for no names" }), []) ∧
    LookupFuture.run 5
        (LookupFuture.lookup [] RecordType.A DnsRequestOptions.default ccEmptyAll) =
      (some (Except.error { kind := ResolveErrorKind.Message "can not lookup for no names" }), []) :=
  ⟨by decide, by decide⟩

/-- C2 (amended to non-empty candidate lists, `n ≥ 1`): when every candidate's
query resolves to an empty answer container, the engine resolves successfully
with an empty container after exactly `n` queries — one per candidate, issued
in priority order, i.e. in the order obtained by repeatedly removing the
candidate at the end of the list (`names.reverse`). -/
theorem all_empty_resolves_empty_in_order (names : List Name) (rt : RecordType)
    (opts : DnsRequestOptions) (cc : CachingClient)
    (hne : names ≠ [])
    (hall : ∀ name ∈ names, ∃ l, cc.lookup (Query.query name rt) opts = Except.ok l ∧ l.rdatas = []) :
    ∃ l, l.rdatas = [] ∧
      LookupFuture.run names.length (LookupFuture.lookup names rt opts cc) =
        (some (Except.ok l), names.reverse.map (fun n => Query.query n rt)) := by
  rcases List.eq_nil_or_concat names with h | ⟨rest, x, h⟩
  · exact absurd h hne
  rw [List.concat_eq_append] at h
  subst h
  rw [lookup_state_of_pop (rest ++ [x]) rt opts cc x rest (vecPop_concat rest x)]
  obtain ⟨lx, hqx, hlx⟩ := hall x (by simp)
  obtain ⟨lz, hlz, hrun⟩ :=
    run_all_empty cc rt opts rest (Query.query x rt) lx hqx hlx
      (fun n hn => hall n (by simp [hn]))
  refine ⟨lz, hlz, ?_⟩
  have hlen : (rest ++ [x]).length = rest.length + 1 := by simp
  rw [hlen, hrun]
  simp

/-- Witness for C2 (amended) at candidates `["a", "b"]` against a collaborator
answering every query with an empty container: success with an empty container
after exactly the two queries "b" then "a". -/
theorem all_empty_resolves_empty_in_order_witness :
    (["a", "b"] : List Name) ≠ [] ∧
    (∀ name ∈ (["a", "b"] : List Name), ∃ l,
      ccEmptyAll.lookup (Query.query name RecordType.A) DnsRequestOptions.default = Except.ok l ∧
        l.rdatas = []) ∧
    (∃ l, l.rdatas = [] ∧
      LookupFuture.run 2
          (LookupFuture.lookup ["a", "b"] RecordType.A DnsRequestOptions.default ccEmptyAll) =
        (some (Except.ok l), [Query.query "b" RecordType.A, Query.query "a" RecordType.A])) :=
  ⟨by decide,
    fun _ _ => ⟨{ rdatas := [], valid_until := 0 }, rfl, rfl⟩,
    by
      have h := all_empty_resolves_empty_in_order ["a", "b"] RecordType.A
        DnsRequestOptions.default ccEmptyAll (by decide)
        (fun _ _ => ⟨{ rdatas := [], valid_until := 0 }, rfl, rfl⟩)
      simpa using h⟩

/-- C3: when every candidate's query fails, the terminal result is a failure
carrying the error observed for the last-attempted candidate — the head of the
original list, since candidates are popped from the end — and all `n`
candidates were queried in priority order before failing (intermediate errors
are discarded while candidates remain). -/
theorem all_fail_propagates_last_error (names : List Name) (rt : RecordType)
    (opts : DnsRequestOptions) (cc : CachingClient)
    (hne : names ≠ [])
    (hall : ∀ name ∈ names, ∃ e, cc.lookup (Query.query name rt) opts = Except.error e) :
    ∃ e, cc.lookup (Query.query (names.head hne) rt) opts = Except.error e ∧
      LookupFuture.run names.length (LookupFuture.lookup names rt opts cc) =
        (some (Except.error e), names.reverse.map (fun n => Query.query n rt)) := by
  rcases List.eq_nil_or_concat names with h | ⟨rest, x, h⟩
  · exact absurd h hne
  rw [List.concat_eq_append] at h
  subst h
  obtain ⟨ex, hqx⟩ := hall x (by simp)
  obtain ⟨ez, hrun, hdisj⟩ :=
    run_all_error cc rt opts rest (Query.query x rt) ex hqx
      (fun n hn => hall n (by simp [hn]))
  refine ⟨ez, ?_, ?_⟩
  · rcases hdisj with ⟨hnil, hez⟩ | ⟨n0, ns, hcons, hl⟩
    · subst hnil
      subst hez
      exact hqx
    · subst hcons
      exact hl
  · rw [lookup_state_of_pop (rest ++ [x]) rt opts cc x rest (vecPop_concat rest x)]
    have hlen : (rest ++ [x]).length = rest.length + 1 := by simp
    rw [hlen, hrun]
    simp

/-- Witness for C3 at candidates `["a", "b"]` against a collaborator failing
every query with an error naming the queried name: the terminal error is the
one for "a" (the last-attempted candidate), not the earlier one for "b", and
both queries appear in the trace. -/
theorem all_fail_propagates_last_error_witness :
    (["a", "b"] : List Name) ≠ [] ∧
    (∀ name ∈ (["a", "b"] : List Name), ∃ e,
      ccErrAll.lookup (Query.query name RecordType.A) DnsRequestOptions.default = Except.error e) ∧
    (∃ e, ccErrAll.lookup (Query.query "a" RecordType.A) DnsRequestOptions.default = Except.error e ∧
      LookupFuture.run 2
          (LookupFuture.lookup ["a", "b"] RecordType.A DnsRequestOptions.default ccErrAll) =
        (some (Except.error e), [Query.query "b" RecordType.A, Query.query "a" RecordType.A])) :=
  ⟨by decide,
    fun name _ => ⟨{ kind := ResolveErrorKind.Msg name }, rfl⟩,
    by
      have h := all_fail_propagates_last_error ["a", "b"] RecordType.A
        DnsRequestOptions.default ccErrAll (by decide)
        (fun name _ => ⟨{ kind := ResolveErrorKind.Msg name }, rfl⟩)
      simpa using h⟩

/-- C4: constructing via `LookupFuture::lookup` with an empty candidate list
stores an already-failed future carrying the message
"can not lookup for no names"; driving it (with any fuel) terminates with that
error and an empty query trace — the collaborator is never consulted. -/
theorem empty_names_fails_without_query (rt : RecordType) (opts : DnsRequestOptions)
    (cc : CachingClient) (fuel : Nat) :
    (LookupFuture.lookup [] rt opts cc).future =
      InnerFuture.failed { kind := ResolveErrorKind.Message "can not lookup for no names" } ∧
    LookupFuture.run (fuel + 1) (LookupFuture.lookup [] rt opts cc) =
      (some (Except.error { kind := ResolveErrorKind.Message "can not lookup for no names" }), []) :=
  ⟨rfl, rfl⟩

/-- C5: `Lookup::append` concatenates the two record sequences — self's records
first, both in their original order — and takes the minimum of the two
deadlines; being a pure function of immutable containers it mutates neither
input. Consequently appending an empty container on either side leaves the
record sequence unchanged while still taking the minimum deadline. -/
theorem append_concats_and_takes_min_deadline (a b : Lookup) (t : Instant) :
    (a.append b).rdatas = a.rdatas ++ b.rdatas ∧
    (a.append b).valid_until = min a.valid_until b.valid_until ∧
    (a.append (Lookup.new_with_deadline [] t)).rdatas = a.rdatas ∧
    ((Lookup.new_with_deadline [] t).append b).rdatas = b.rdatas ∧
    (a.append (Lookup.new_with_deadline [] t)).valid_until = min a.valid_until t ∧
    ((Lookup.new_with_deadline [] t).append b).valid_until = min t b.valid_until := by
  simp [Lookup.append, Lookup.new_with_deadline]

/-- C6: for every typed record family and every answer container, the typed
iterator obtained from the typed lookup view starts at the container's first
record and — driven by repeated `next` calls until exhaustion — yields exactly
the records whose kind tag matches the family, unwrapped to the payload type,
in their original relative order (`List.filterMap` of the family projection).
Because `iter` builds a fresh iterator from the immutable container each time
it is called, obtaining the iterator twice yields two independent sequences
with this same content: iteration is restartable and idempotent.  The final
conjunct states the same fact once per family through `RecordFamily.iterOf`,
which coincides with each per-family `iter` definitionally. -/
theorem typed_iter_yields_matching_in_order (l : Lookup) :
    (({ lookup := l } : SrvLookup).iter.inner = l.rdatas ∧
      ({ lookup := l } : SrvLookup).iter.yieldAll = l.rdatas.filterMap srvProj) ∧
    (({ lookup := l } : ReverseLookup).iter.inner = l.rdatas ∧
      ({ lookup := l } : ReverseLookup).iter.yieldAll = l.rdatas.filterMap ptrProj) ∧
    (({ lookup := l } : Ipv4Lookup).iter.inner = l.rdatas ∧
      ({ lookup := l } : Ipv4Lookup).iter.yieldAll = l.rdatas.filterMap aProj) ∧
    (({ lookup := l } : Ipv6Lookup).iter.inner = l.rdatas ∧
      ({ lookup := l } : Ipv6Lookup).iter.yieldAll = l.rdatas.filterMap aaaaProj) ∧
    (({ lookup := l } : MxLookup).iter.inner = l.rdatas ∧
      ({ lookup := l } : MxLookup).iter.yieldAll = l.rdatas.filterMap mxProj) ∧
    (({ lookup := l } : TxtLookup).iter.inner = l.rdatas ∧
      ({ lookup := l } : TxtLookup).iter.yieldAll = l.rdatas.filterMap txtProj) ∧
    (∀ f : RecordFamily, (f.iterOf l).yieldAll = l.rdatas.filterMap f.proj) :=
  ⟨⟨rfl, yieldAll_eq_filterMap _⟩, ⟨rfl, yieldAll_eq_filterMap _⟩,
    ⟨rfl, yieldAll_eq_filterMap _⟩, ⟨rfl, yieldAll_eq_filterMap _⟩,
    ⟨rfl, yieldAll_eq_filterMap _⟩, ⟨rfl, yieldAll_eq_filterMap _⟩,
    fun _ => yieldAll_eq_filterMap _⟩

/-- C7: each typed future's poll is observationally the inner `LookupFuture`
poll up to wrapping: for every inner state, one poll of the typed future
returns the inner poll's result with a ready container wrapped into the typed
view (`pollMap`, which leaves `NotReady` as `NotReady` and errors unchanged),
carries the identical successor inner state, and issues the identical
queries. -/
theorem typed_future_poll_delegates (s : LookupFuture) :
    SrvLookupFuture.poll { inner := s } =
      (pollMap (fun l => ({ lookup := l } : SrvLookup)) s.poll.1,
        { inner := s.poll.2.1 }, s.poll.2.2) ∧
    ReverseLookupFuture.poll { inner := s } =
      (pollMap (fun l => ({ lookup := l } : ReverseLookup)) s.poll.1,
        { inner := s.poll.2.1 }, s.poll.2.2) ∧
    Ipv4LookupFuture.poll { inner := s } =
      (pollMap (fun l => ({ lookup := l } : Ipv4Lookup)) s.poll.1,
        { inner := s.poll.2.1 }, s.poll.2.2) ∧
    Ipv6LookupFuture.poll { inner := s } =
      (pollMap (fun l => ({ lookup := l } : Ipv6Lookup)) s.poll.1,
        { inner := s.poll.2.1 }, s.poll.2.2) ∧
    MxLookupFuture.poll { inner := s } =
      (pollMap (fun l => ({ lookup := l } : MxLookup)) s.poll.1,
        { inner := s.poll.2.1 }, s.poll.2.2) ∧
    TxtLookupFuture.poll { inner := s } =
      (pollMap (fun l => ({ lookup := l } : TxtLookup)) s.poll.1,
        { inner := s.poll.2.1 }, s.poll.2.2) := by
  rcases hp : s.poll with ⟨r, s2, qs⟩
  rcases r with e | a
  · simp [SrvLookupFuture.poll, ReverseLookupFuture.poll, Ipv4LookupFuture.poll,
      Ipv6LookupFuture.poll, MxLookupFuture.poll, TxtLookupFuture.poll,
      hp, pollMap, Async.map, Except.map]
  · rcases a with l | _ <;>
      simp [SrvLookupFuture.poll, ReverseLookupFuture.poll, Ipv4LookupFuture.poll,
        Ipv6LookupFuture.poll, MxLookupFuture.poll, TxtLookupFuture.poll,
        hp, pollMap, Async.map, Except.map]

/-- C8: the engine state holds exactly one inner sub-future (the `future`
field), so at most one sub-query is in flight at any time; correspondingly one
poll consults the collaborator at most once.  Moreover each poll either leaves
the candidate list and the in-flight sub-future untouched, or — only after the
current sub-future resolved to an empty container or to an error — swaps in a
query for exactly the candidate popped from the end of the list (the
highest-priority remaining one) and suspends, so a higher-priority candidate's
query always completes before a lower-priority candidate is attempted. -/
theorem poll_single_inflight_swap_discipline (s : LookupFuture) :
    s.poll.2.2.length ≤ 1 ∧
    ((s.poll.2.1.future = s.future ∧ s.poll.2.1.names = s.names) ∨
      (∃ name rest, vecPop s.names = (some name, rest) ∧
        s.poll.2.1.names = rest ∧
        s.poll.2.1.future = InnerFuture.query (Query.query name s.record_type) s.options ∧
        s.poll.1 = Except.ok Async.NotReady ∧
        ((∃ l, InnerFuture.pollOnce s.client_cache s.future = Except.ok (Async.Ready l) ∧
            l.rdatas = []) ∨
          (∃ e, InnerFuture.pollOnce s.client_cache s.future = Except.error e)))) := by
  obtain ⟨cc, names, rt, opts, fut⟩ := s
  cases fut with
  | failed e =>
    cases hv : vecPop names with
    | mk o rest =>
      cases o with
      | some name =>
        refine ⟨by simp [LookupFuture.poll, InnerFuture.pollOnce], Or.inr ⟨name, rest, rfl, ?_, ?_, ?_, Or.inr ⟨e, rfl⟩⟩⟩ <;>
          simp [LookupFuture.poll, InnerFuture.pollOnce, LookupFuture.next_lookup, hv]
      | none =>
        refine ⟨by simp [LookupFuture.poll, InnerFuture.pollOnce], Or.inl ⟨?_, ?_⟩⟩ <;>
          simp [LookupFuture.poll, InnerFuture.pollOnce, LookupFuture.next_lookup, hv]
  | query q o =>
    cases hq : cc.lookup q o with
    | error e =>
      cases hv : vecPop names with
      | mk op rest =>
        cases op with
        | some name =>
          refine ⟨?_, Or.inr ⟨name, rest, rfl, ?_, ?_, ?_, Or.inr ⟨e, by simp [InnerFuture.pollOnce, hq]⟩⟩⟩ <;>
            simp [LookupFuture.poll, InnerFuture.pollOnce, LookupFuture.next_lookup, hq, hv]
        | none =>
          refine ⟨?_, Or.inl ⟨?_, ?_⟩⟩ <;>
            simp [LookupFuture.poll, InnerFuture.pollOnce, LookupFuture.next_lookup, hq, hv]
    | ok l =>
      cases hb : (l.rdatas.length == 0) with
      | false =>
        refine ⟨?_, Or.inl ⟨?_, ?_⟩⟩ <;>
          simp [LookupFuture.poll, InnerFuture.pollOnce, hq, hb]
      | true =>
        have hl : l.rdatas = [] := by
          have := Nat.beq_eq_true_eq l.rdatas.length 0 ▸ hb
          exact List.length_eq_zero.mp (by simpa using hb)
        cases hv : vecPop names with
        | mk op rest =>
          cases op with
          | some name =>
            refine ⟨?_, Or.inr ⟨name, rest, rfl, ?_, ?_, ?_,
              Or.inl ⟨l, by simp [InnerFuture.pollOnce, hq], hl⟩⟩⟩ <;>
              simp [LookupFuture.poll, InnerFuture.pollOnce, LookupFuture.next_lookup, hq, hb, hv]
          | none =>
            refine ⟨?_, Or.inl ⟨?_, ?_⟩⟩ <;>
              simp [LookupFuture.poll, InnerFuture.pollOnce, LookupFuture.next_lookup, hq, hb, hv]

/-- C9: `LookupFuture::error` builds an already-failed operation: its candidate
list is empty, driving it (with any fuel) never consults the collaborator
(empty query trace), and its terminal error is the resolution error wrapping
exactly the textual description of the external cause. -/
theorem error_builds_already_failed (cc : CachingClient) (e : ExternalError) (fuel : Nat) :
    (LookupFuture.error cc e).names = [] ∧
    LookupFuture.run (fuel + 1) (LookupFuture.error cc e) =
      (some (Except.error { kind := ResolveErrorKind.Msg e.display }), []) :=
  ⟨rfl, rfl⟩

/-- C10: the fallback-termination test is record-count only, not record-kind
aware: if the first-attempted candidate's answer container is non-empty but
contains no record of the requested family, the engine still resolves
successfully with that container after that single query — no further
candidate is tried — and the family's typed iterator over the result yields
the empty sequence. -/
theorem nonempty_wrong_kind_still_terminates (names : List Name) (rt : RecordType)
    (opts : DnsRequestOptions) (cc : CachingClient) (name : Name) (rest : List Name)
    (l : Lookup) (f : RecordFamily)
    (hpop : vecPop names = (some name, rest))
    (hq : cc.lookup (Query.query name rt) opts = Except.ok l)
    (hne : l.rdatas ≠ [])
    (hnomatch : l.rdatas.filterMap f.proj = []) (fuel : Nat) :
    LookupFuture.run (fuel + 1) (LookupFuture.lookup names rt opts cc) =
      (some (Except.ok l), [Query.query name rt]) ∧
    (f.iterOf l).yieldAll = [] := by
  refine ⟨run_lookup_first_success names rt opts cc name rest l hpop hq hne fuel, ?_⟩
  rw [yieldAll_eq_filterMap]
  exact hnomatch

/-- Witness for C10 at candidates `["x", "y"]` and record type A, against a
collaborator answering with a single CNAME record: the run terminates at the
first candidate with the CNAME-only container, and the A-family iterator over
it is empty. -/
theorem nonempty_wrong_kind_still_terminates_witness :
    vecPop (["x", "y"] : List Name) = (some "y", ["x"]) ∧
    ccCname.lookup (Query.query "y" RecordType.A) DnsRequestOptions.default =
      Except.ok { rdatas := [RData.CNAME "c.example."], valid_until := 7 } ∧
    ({ rdatas := [RData.CNAME "c.example."], valid_until := 7 } : Lookup).rdatas ≠ [] ∧
    ({ rdatas := [RData.CNAME "c.example."], valid_until := 7 } : Lookup).rdatas.filterMap
      RecordFamily.a.proj = [] ∧
    (LookupFuture.run 1
        (LookupFuture.lookup ["x", "y"] RecordType.A DnsRequestOptions.default ccCname) =
      (some (Except.ok { rdatas := [RData.CNAME "c.example."], valid_until := 7 }),
        [Query.query "y" RecordType.A]) ∧
    (RecordFamily.a.iterOf { rdatas := [RData.CNAME "c.example."], valid_until := 7 }).yieldAll = []) :=
  ⟨by decide, rfl, by decide, rfl,
    nonempty_wrong_kind_still_terminates ["x", "y"] RecordType.A DnsRequestOptions.default
      ccCname "y" ["x"] _ RecordFamily.a (by decide) rfl (by decide) rfl 0⟩
